import Mathlib

/-!
Verification of the GreatBuy customer-support tool server
(`mcp_server_remote.py`): the wiki search, the order-status reader and the
order-status updater, shallowly embedded over association lists standing for
the Python dictionaries (iteration order = insertion order).
-/

namespace GreatBuy

/-- Python's substring test `needle in hay` on strings. -/
def strIn (needle hay : String) : Bool := decide (needle.data <:+: hay.data)

/-- Python's `str.lower()` (Lean's `String.toLower`), written directly on the
character list so that it evaluates by kernel reduction. -/
def strLower (s : String) : String := ⟨s.data.map Char.toLower⟩

/-- Modelled from the spec: the wiki table `_MOCK_WIKI_DB` (defined in `data.py`,
which is not under `src/`) is a static keyword-to-article-text mapping,
iterated in insertion order; modelled as an association list. -/
abbrev WikiDB := List (String × String)

/-- Modelled from the spec: the seller table `_MOCK_SELLERS_DB` (defined in
`data.py`, not under `src/`) maps a seller id to a record whose single
attribute is `name`; modelled as an association list id-to-name. -/
abbrev SellersDB := List (String × String)

/-- The not-found message of `search_wiki` (`mcp_server_remote.py`, line 58). -/
def notfound_wiki_msg (query : String) : String :=
  "I couldn't find specific information for '" ++
    (query ++ "' in our GreatBuy WIKI. Could you rephrase or ask about something else?")

/-- `search_wiki` (`mcp_server_remote.py`, lines 33-58): lowercase the query,
scan keywords for a substring match in either direction (first match wins),
fall back to a substring scan of the lowercased article bodies, and finally
return the not-found message echoing the query. -/
def search_wiki (wiki : WikiDB) (query : String) : String :=
  let query_lower := strLower query
  match wiki.find? (fun kc => strIn kc.1 query_lower || strIn query_lower kc.1) with
  | some kc => kc.2
  | none =>
    match wiki.find? (fun kc => strIn query_lower (strLower kc.2)) with
    | some kc => kc.2
    | none => notfound_wiki_msg query

/-- An order record, with the optional fields of the Python order dictionaries.
`none` models an absent (or cleared/None) field. -/
structure OrderRecord where
  status : String
  items : Option (List String)
  seller_id : Option String
  estimated_delivery_time : Option String
  special_instructions : Option String
deriving DecidableEq, Repr

/-- Modelled from the spec: the order store `persistent_orders_db`
(`persistent_data.py`, not under `src/`) exposes `get(order_id)` and
`update(order_id, partial_fields) -> success:boolean`; modelled as an
association list keyed by order id, with `get` as `List.lookup`. -/
abbrev OrdersDB := List (String × OrderRecord)

/-- The not-found message of `read_order_status` (line 91). -/
def notfound_read_msg (order_id : String) : String :=
  "Sorry, I could not find a GreatBuy order with ID '" ++ (order_id ++ "'.")

/-- `read_order_status` (`mcp_server_remote.py`, lines 61-93): look the order
up; resolve the seller name when `seller_id` is truthy and present in the
seller table; join the items with ", " (the list `["No items listed"]` is the
default only when the field is absent); compose the fixed template; append the
special instructions when that field is truthy. Pure: returns only a string. -/
def read_order_status (sellers : SellersDB) (db : OrdersDB) (order_id : String) : String :=
  match db.lookup order_id with
  | none => notfound_read_msg order_id
  | some order =>
    let seller_name :=
      match order.seller_id with
      | none => "Unknown Seller"
      | some sid =>
        if sid = "" then "Unknown Seller"
        else
          match sellers.lookup sid with
          | some name => name
          | none => "Unknown Seller"
    let items_str := String.intercalate ", " (order.items.getD ["No items listed"])
    let status_message :=
      "Order '" ++ (order_id ++ ("': Status is '" ++ (order.status ++
        ("'. Items: " ++ (items_str ++ (". Seller: " ++ (seller_name ++
          (". Estimated Delivery: " ++
            ((order.estimated_delivery_time.getD "N/A") ++ ". ")))))))))
    match order.special_instructions with
    | none => status_message
    | some si => if si = "" then status_message
                 else status_message ++ ("Special Instructions: " ++ si)

/-- The statuses from which cancellation is permitted (line 120). -/
def cancellable_statuses : List String :=
  ["processing", "awaiting shipment", "preparing for shipment"]

/-- The not-found message of `update_order_status` (line 112). -/
def notfound_update_msg (order_id : String) : String :=
  "Sorry, I could not find a GreatBuy order with ID '" ++ (order_id ++ "' to update.")

/-- The success confirmation of `update_order_status` (line 129). -/
def success_msg (order_id : String) : String :=
  "Order '" ++ (order_id ++ "' has been successfully cancelled.")

/-- The store-failure message of `update_order_status` (line 134). -/
def fail_msg (order_id : String) : String :=
  "Failed to update order '" ++ (order_id ++ "' in database.")

/-- The idempotent already-cancelled confirmation (line 138). -/
def already_cancelled_msg (order_id : String) : String :=
  "Order '" ++ (order_id ++ "' is already cancelled.")

/-- The policy-rejection message naming the current status (line 142). -/
def policy_msg (order_id status : String) : String :=
  "Order '" ++ (order_id ++ ("' cannot be cancelled because its current status is '" ++
    (status ++ "'. Please refer to our cancellation policy or contact support for more help.")))

/-- The cancellation-only rejection message (line 146). -/
def cancel_only_msg (order_id new_status status : String) : String :=
  "This tool is primarily for cancelling orders. To change status to '" ++
    (new_status ++ ("' is not supported via this action for order '" ++
      (order_id ++ ("'. Current status remains '" ++ (status ++ "'.")))))

/-- Modelled from the spec: `persistent_orders_db.update(order_id, partial_fields)`
(`persistent_data.py`, not under `src/`) merges the given partial fields into
the stored record and reports success as a boolean, transactionally. The only
caller passes `status = "Cancelled"` and `estimated_delivery_time = None`, so
the partial update is modelled as replacing exactly those two fields; the
parameter `ok` models whether the store reports success, and on failure the
store is left unchanged. -/
def store_update_cancel (ok : Bool) (db : OrdersDB) (order_id : String) : Bool × OrdersDB :=
  if ok then
    (true, db.map (fun p =>
      if p.1 == order_id then
        (p.1, { p.2 with status := "Cancelled", estimated_delivery_time := none })
      else p))
  else (false, db)

/-- `update_order_status` (`mcp_server_remote.py`, lines 96-148): look the
order up; lowercase the requested status; on a cancellation request, apply the
guarded transition against the store; otherwise reject with the
cancellation-only message. Returns the reply and the resulting store. -/
def update_order_status (ok : Bool) (db : OrdersDB) (order_id new_status : String) :
    String × OrdersDB :=
  match db.lookup order_id with
  | none => (notfound_update_msg order_id, db)
  | some order =>
    let normalized_new_status := strLower new_status
    if normalized_new_status = "cancelled" then
      let current_status_lower := strLower order.status
      if cancellable_statuses.contains current_status_lower then
        let r := store_update_cancel ok db order_id
        if r.1 then (success_msg order_id, r.2)
        else (fail_msg order_id, r.2)
      else if current_status_lower = "cancelled" then
        (already_cancelled_msg order_id, db)
      else
        (policy_msg order_id order.status, db)
    else
      (cancel_only_msg order_id new_status order.status, db)

/-! ### Helper lemmas about strings and the store -/

theorem strIn_of_infix {n h : String} (hin : n.data <:+: h.data) : strIn n h = true :=
  decide_eq_true hin

theorem strIn_append_left (n s t : String) (h : strIn n t = true) :
    strIn n (s ++ t) = true :=
  strIn_of_infix ((of_decide_eq_true h).trans (List.suffix_append s.data t.data).isInfix)

theorem strIn_self_append (n t : String) : strIn n (n ++ t) = true :=
  strIn_of_infix (List.prefix_append n.data t.data).isInfix

/-- The first character of a string, used to tell the reply templates apart. -/
def headChar (s : String) : Option Char := s.data.head?

theorem headChar_append (a b : String) (ha : a.data ≠ []) :
    headChar (a ++ b) = headChar a := by
  unfold headChar
  rw [String.data_append]
  cases h : a.data with
  | nil => exact absurd h ha
  | cons x xs => rfl

theorem ne_of_headChar_ne {s t : String} (h : headChar s ≠ headChar t) : s ≠ t :=
  fun e => h (congrArg headChar e)

theorem lookup_store_update_cancel (db : OrdersDB) (oid : String) (o : OrderRecord)
    (h : db.lookup oid = some o) :
    (store_update_cancel true db oid).2.lookup oid =
      some { o with status := "Cancelled", estimated_delivery_time := none } := by
  unfold store_update_cancel
  simp only [if_true]
  induction db with
  | nil => simp at h
  | cons p t ih =>
    obtain ⟨k, v⟩ := p
    by_cases hk : oid = k
    · subst hk
      rw [List.lookup_cons] at h
      simp only [beq_self_eq_true] at h
      injection h with h
      subst h
      simp [List.lookup_cons]
    · have hbk : (oid == k) = false := beq_eq_false_iff_ne.mpr hk
      have hkb : (k == oid) = false := beq_eq_false_iff_ne.mpr (Ne.symm hk)
      rw [List.lookup_cons] at h
      rw [hbk] at h
      simp only [List.map_cons, hkb, if_neg Bool.false_ne_true]
      rw [List.lookup_cons, hbk]
      exact ih h

theorem strIn_refl (s : String) : strIn s s = true := strIn_of_infix List.infix_rfl

theorem strLower_cancelled : strLower "cancelled" = "cancelled" := by decide

theorem cancelled_not_cancellable : "cancelled" ∉ cancellable_statuses := by
  decide

/-! ### Claims -/

/-- C1: on an order whose current status is "cancelled" up to case, a
cancellation request returns the already-cancelled confirmation, which contains
"already cancelled", and leaves the store untouched. -/
theorem update_already_cancelled_idempotent (ok : Bool) (db : OrdersDB) (oid : String)
    (o : OrderRecord) (h : db.lookup oid = some o) (hc : strLower o.status = "cancelled") :
    update_order_status ok db oid "cancelled" = (already_cancelled_msg oid, db) ∧
    strIn "already cancelled" (already_cancelled_msg oid) = true := by
  constructor
  · simp [update_order_status, h, hc, strLower_cancelled, cancelled_not_cancellable]
  · unfold already_cancelled_msg
    apply strIn_append_left
    apply strIn_append_left
    decide

theorem update_already_cancelled_idempotent_witness :
    update_order_status true
        [("ORD1", (⟨"Cancelled", some ["Book"], none, none, none⟩ : OrderRecord))]
        "ORD1" "cancelled" =
      (already_cancelled_msg "ORD1",
        [("ORD1", (⟨"Cancelled", some ["Book"], none, none, none⟩ : OrderRecord))]) ∧
    strIn "already cancelled" (already_cancelled_msg "ORD1") = true :=
  update_already_cancelled_idempotent true
    [("ORD1", ⟨"Cancelled", some ["Book"], none, none, none⟩)] "ORD1"
    ⟨"Cancelled", some ["Book"], none, none, none⟩ (by decide) (by decide)

/-- C5 (corrected): the requested status is compared after lowercasing, so the
rejection happens exactly when the lowercased target differs from "cancelled";
in that case the reply is the cancellation-only message and the store is
unchanged, whatever the order's current status. -/
theorem update_noncancel_rejected (ok : Bool) (db : OrdersDB) (oid ns : String)
    (o : OrderRecord) (h : db.lookup oid = some o) (hns : strLower ns ≠ "cancelled") :
    update_order_status ok db oid ns = (cancel_only_msg oid ns o.status, db) := by
  simp [update_order_status, h, hns]

theorem update_noncancel_rejected_witness :
    update_order_status true
        [("ORD3", (⟨"Processing", some ["Pen"], none, some "Tue", none⟩ : OrderRecord))]
        "ORD3" "shipped" =
      (cancel_only_msg "ORD3" "shipped" "Processing",
        [("ORD3", (⟨"Processing", some ["Pen"], none, some "Tue", none⟩ : OrderRecord))]) :=
  update_noncancel_rejected true
    [("ORD3", ⟨"Processing", some ["Pen"], none, some "Tue", none⟩)] "ORD3" "shipped"
    ⟨"Processing", some ["Pen"], none, some "Tue", none⟩ (by decide) (by decide)

/-- C5 (counterexample): "CANCELLED" differs from "cancelled" as a string, yet
on a Processing order the call cancels the order and changes the record instead
of returning the cancellation-only rejection. -/
theorem update_uppercase_target_cancels :
    ("CANCELLED" : String) ≠ "cancelled" ∧
    update_order_status true
        [("ORD2", (⟨"Processing", some ["Pen"], none, some "Tue", none⟩ : OrderRecord))]
        "ORD2" "CANCELLED" =
      (success_msg "ORD2",
        [("ORD2", (⟨"Cancelled", some ["Pen"], none, none, none⟩ : OrderRecord))]) ∧
    success_msg "ORD2" ≠ cancel_only_msg "ORD2" "CANCELLED" "Processing" ∧
    (update_order_status true
        [("ORD2", (⟨"Processing", some ["Pen"], none, some "Tue", none⟩ : OrderRecord))]
        "ORD2" "CANCELLED").2.lookup "ORD2" ≠
      some (⟨"Processing", some ["Pen"], none, some "Tue", none⟩ : OrderRecord) := by
  decide

/-- C6: from a status that is neither cancelled nor cancellable, a cancellation
request returns the policy rejection, which names the current status, and
leaves the store untouched. -/
theorem update_noncancellable_rejected (ok : Bool) (db : OrdersDB) (oid : String)
    (o : OrderRecord) (h : db.lookup oid = some o)
    (h1 : cancellable_statuses.contains (strLower o.status) = false)
    (h2 : strLower o.status ≠ "cancelled") :
    update_order_status ok db oid "cancelled" = (policy_msg oid o.status, db) ∧
    strIn o.status (policy_msg oid o.status) = true := by
  have h1' : strLower o.status ∉ cancellable_statuses := by simpa using h1
  constructor
  · simp [update_order_status, h, h1', h2, strLower_cancelled]
  · unfold policy_msg
    apply strIn_append_left
    apply strIn_append_left
    apply strIn_append_left
    exact strIn_self_append _ _

theorem update_noncancellable_rejected_witness :
    update_order_status true
        [("ORD4", (⟨"Delivered", some ["Mug"], none, none, none⟩ : OrderRecord))]
        "ORD4" "cancelled" =
      (policy_msg "ORD4" "Delivered",
        [("ORD4", (⟨"Delivered", some ["Mug"], none, none, none⟩ : OrderRecord))]) ∧
    strIn "Delivered" (policy_msg "ORD4" "Delivered") = true :=
  update_noncancellable_rejected true
    [("ORD4", ⟨"Delivered", some ["Mug"], none, none, none⟩)] "ORD4"
    ⟨"Delivered", some ["Mug"], none, none, none⟩ (by decide) (by decide) (by decide)

/-- C10: the requested status is lowercased before comparison, so any casing
whose lowercase form is "cancelled" behaves exactly like the request
"cancelled" on an existing order. -/
theorem update_target_case_insensitive (ok : Bool) (db : OrdersDB) (oid ns : String)
    (o : OrderRecord) (h : db.lookup oid = some o) (hns : strLower ns = "cancelled") :
    update_order_status ok db oid ns = update_order_status ok db oid "cancelled" := by
  simp [update_order_status, h, hns, strLower_cancelled]

theorem update_target_case_insensitive_witness :
    update_order_status true
        [("ORD5", (⟨"Processing", some ["Cup"], none, some "Wed", none⟩ : OrderRecord))]
        "ORD5" "CANCELLED" =
      update_order_status true
        [("ORD5", (⟨"Processing", some ["Cup"], none, some "Wed", none⟩ : OrderRecord))]
        "ORD5" "cancelled" :=
  update_target_case_insensitive true
    [("ORD5", ⟨"Processing", some ["Cup"], none, some "Wed", none⟩)] "ORD5" "CANCELLED"
    ⟨"Processing", some ["Cup"], none, some "Wed", none⟩ (by decide) (by decide)

theorem store_update_cancel_fst (db : OrdersDB) (oid : String) :
    (store_update_cancel true db oid).1 = true := rfl

/-- C2: from a cancellable status, an accepted cancellation rewrites the record
to status "Cancelled" with a cleared estimated delivery time and every other
field untouched, and confirms with the success message. -/
theorem update_cancellable_cancels (db : OrdersDB) (oid : String) (o : OrderRecord)
    (h : db.lookup oid = some o)
    (hc : strLower o.status ∈ cancellable_statuses) :
    (update_order_status true db oid "cancelled").1 = success_msg oid ∧
    ∃ o', (update_order_status true db oid "cancelled").2.lookup oid = some o' ∧
      o'.status = "Cancelled" ∧ o'.estimated_delivery_time = none ∧
      o'.items = o.items ∧ o'.seller_id = o.seller_id ∧
      o'.special_instructions = o.special_instructions := by
  have hred : update_order_status true db oid "cancelled" =
      (success_msg oid, (store_update_cancel true db oid).2) := by
    simp [update_order_status, h, hc, strLower_cancelled, store_update_cancel_fst]
  rw [hred]
  exact ⟨rfl, { o with status := "Cancelled", estimated_delivery_time := none },
    lookup_store_update_cancel db oid o h, rfl, rfl, rfl, rfl, rfl⟩

theorem update_cancellable_cancels_witness :
    (update_order_status true
        [("ORD6", (⟨"Processing", some ["Vase"], some "S9", some "Fri", some "fragile"⟩ : OrderRecord))]
        "ORD6" "cancelled").1 = success_msg "ORD6" ∧
    ∃ o', (update_order_status true
        [("ORD6", (⟨"Processing", some ["Vase"], some "S9", some "Fri", some "fragile"⟩ : OrderRecord))]
        "ORD6" "cancelled").2.lookup "ORD6" = some o' ∧
      o'.status = "Cancelled" ∧ o'.estimated_delivery_time = none ∧
      o'.items = (⟨"Processing", some ["Vase"], some "S9", some "Fri", some "fragile"⟩ : OrderRecord).items ∧
      o'.seller_id = (⟨"Processing", some ["Vase"], some "S9", some "Fri", some "fragile"⟩ : OrderRecord).seller_id ∧
      o'.special_instructions = (⟨"Processing", some ["Vase"], some "S9", some "Fri", some "fragile"⟩ : OrderRecord).special_instructions :=
  update_cancellable_cancels
    [("ORD6", ⟨"Processing", some ["Vase"], some "S9", some "Fri", some "fragile"⟩)] "ORD6"
    ⟨"Processing", some ["Vase"], some "S9", some "Fri", some "fragile"⟩ (by decide) (by decide)

/-- C7: when the store reports failure on an accepted cancellation, the reply
is the store-failure message, the store is left as it was, and that message
differs from the not-found, success, policy-rejection, cancellation-only and
already-cancelled replies. -/
theorem update_store_failure_distinct (db : OrdersDB) (oid : String) (o : OrderRecord)
    (h : db.lookup oid = some o)
    (hc : strLower o.status ∈ cancellable_statuses) :
    update_order_status false db oid "cancelled" = (fail_msg oid, db) ∧
    fail_msg oid ≠ notfound_update_msg oid ∧
    fail_msg oid ≠ success_msg oid ∧
    (∀ st, fail_msg oid ≠ policy_msg oid st) ∧
    (∀ ns st, fail_msg oid ≠ cancel_only_msg oid ns st) ∧
    fail_msg oid ≠ already_cancelled_msg oid := by
  refine ⟨?_, ?_, ?_, ?_, ?_, ?_⟩
  · simp [update_order_status, h, hc, strLower_cancelled, store_update_cancel]
  · apply ne_of_headChar_ne
    unfold fail_msg notfound_update_msg
    rw [headChar_append _ _ (by decide), headChar_append _ _ (by decide)]
    decide
  · apply ne_of_headChar_ne
    unfold fail_msg success_msg
    rw [headChar_append _ _ (by decide), headChar_append _ _ (by decide)]
    decide
  · intro st
    apply ne_of_headChar_ne
    unfold fail_msg policy_msg
    rw [headChar_append _ _ (by decide), headChar_append _ _ (by decide)]
    decide
  · intro ns st
    apply ne_of_headChar_ne
    unfold fail_msg cancel_only_msg
    rw [headChar_append _ _ (by decide), headChar_append _ _ (by decide)]
    decide
  · apply ne_of_headChar_ne
    unfold fail_msg already_cancelled_msg
    rw [headChar_append _ _ (by decide), headChar_append _ _ (by decide)]
    decide

theorem update_store_failure_distinct_witness :
    update_order_status false
        [("ORD7", (⟨"Processing", some ["Hat"], none, some "Sat", none⟩ : OrderRecord))]
        "ORD7" "cancelled" =
      (fail_msg "ORD7",
        [("ORD7", (⟨"Processing", some ["Hat"], none, some "Sat", none⟩ : OrderRecord))]) ∧
    fail_msg "ORD7" ≠ notfound_update_msg "ORD7" ∧
    fail_msg "ORD7" ≠ success_msg "ORD7" ∧
    (∀ st, fail_msg "ORD7" ≠ policy_msg "ORD7" st) ∧
    (∀ ns st, fail_msg "ORD7" ≠ cancel_only_msg "ORD7" ns st) ∧
    fail_msg "ORD7" ≠ already_cancelled_msg "ORD7" :=
  update_store_failure_distinct
    [("ORD7", ⟨"Processing", some ["Hat"], none, some "Sat", none⟩)] "ORD7"
    ⟨"Processing", some ["Hat"], none, some "Sat", none⟩ (by decide) (by decide)

/-- C3 (corrected): when the lowercased query is exactly a stored keyword, the
first keyword pass necessarily finds an entry, and `search_wiki` returns the
article text of the first entry whose keyword matches the lowercased query in
either substring direction. -/
theorem search_wiki_keyword_exact (wiki : WikiDB) (q k c : String)
    (hmem : (k, c) ∈ wiki) (hk : strLower q = k) :
    ∃ kc : String × String,
      wiki.find? (fun e => strIn e.1 (strLower q) || strIn (strLower q) e.1) = some kc ∧
      search_wiki wiki q = kc.2 := by
  cases hfind : wiki.find? (fun e => strIn e.1 (strLower q) || strIn (strLower q) e.1) with
  | none =>
    exfalso
    apply List.find?_eq_none.mp hfind (k, c) hmem
    rw [hk]
    simp [strIn_refl]
  | some kc =>
    refine ⟨kc, rfl, ?_⟩
    simp only [search_wiki, hfind]

theorem search_wiki_keyword_exact_witness :
    ∃ kc : String × String,
      List.find?
          (fun e => strIn e.1 (strLower "premium") || strIn (strLower "premium") e.1)
          [("premium", "ArticleOne")] = some kc ∧
      search_wiki [("premium", "ArticleOne")] "premium" = kc.2 :=
  search_wiki_keyword_exact [("premium", "ArticleOne")] "premium" "premium" "ArticleOne"
    (by decide) (by decide)

/-- C3 (counterexample): the query "premium" equals the stored keyword
"Premium" up to case, yet the search does not return that keyword's article
text, because the raw keyword is compared against the lowercased query. -/
theorem search_wiki_case_mismatch :
    strLower "premium" = strLower "Premium" ∧
    search_wiki [("Premium", "ArticleOne")] "premium" ≠ "ArticleOne" := by
  decide

/-- C8: a query matching no keyword in either direction and occurring in no
lowercased article body yields the fixed not-found message, which contains the
original query text. -/
theorem search_wiki_not_found_echoes (wiki : WikiDB) (q : String)
    (hk : ∀ kc ∈ wiki, strIn kc.1 (strLower q) = false ∧ strIn (strLower q) kc.1 = false)
    (hc : ∀ kc ∈ wiki, strIn (strLower q) (strLower kc.2) = false) :
    search_wiki wiki q = notfound_wiki_msg q ∧
    strIn q (notfound_wiki_msg q) = true := by
  constructor
  · have h1 : wiki.find? (fun kc => strIn kc.1 (strLower q) || strIn (strLower q) kc.1) = none := by
      rw [List.find?_eq_none]
      intro x hx
      simp [(hk x hx).1, (hk x hx).2]
    have h2 : wiki.find? (fun kc => strIn (strLower q) (strLower kc.2)) = none := by
      rw [List.find?_eq_none]
      intro x hx
      simp [hc x hx]
    simp only [search_wiki, h1, h2]
  · unfold notfound_wiki_msg
    apply strIn_append_left
    exact strIn_self_append _ _

theorem search_wiki_not_found_echoes_witness :
    search_wiki [("shipping fees", "Standard shipping costs apply.")] "zzz" =
      notfound_wiki_msg "zzz" ∧
    strIn "zzz" (notfound_wiki_msg "zzz") = true :=
  search_wiki_not_found_echoes [("shipping fees", "Standard shipping costs apply.")] "zzz"
    (by decide) (by decide)

/-- C9: the empty query substring-matches every keyword, so on a non-empty wiki
table the search returns the first entry's article text, not the not-found
message. -/
theorem search_wiki_empty_query_first (kc : String × String) (rest : WikiDB) :
    search_wiki (kc :: rest) "" = kc.2 := by
  have hpred : (strIn kc.1 (strLower "") || strIn (strLower "") kc.1) = true := by
    have h0 : strLower "" = "" := rfl
    rw [h0]
    have : strIn "" kc.1 = true := strIn_of_infix List.nil_infix
    simp [this]
  simp only [search_wiki]
  rw [List.find?_cons_of_pos rest hpred]

/-- The items segment of the reader's reply: the items joined with ", ", with
the placeholder list used only when the field is absent. -/
def items_text (o : OrderRecord) : String :=
  String.intercalate ", " (o.items.getD ["No items listed"])

/-- The seller segment of the reader's reply: the name from the seller table
when `seller_id` is present, non-empty and found there, else "Unknown Seller". -/
def seller_text (sellers : SellersDB) (o : OrderRecord) : String :=
  match o.seller_id with
  | none => "Unknown Seller"
  | some sid =>
    if sid = "" then "Unknown Seller"
    else
      match sellers.lookup sid with
      | some name => name
      | none => "Unknown Seller"

/-- The estimated-delivery segment of the reader's reply. -/
def edt_text (o : OrderRecord) : String :=
  o.estimated_delivery_time.getD "N/A"

/-- The special-instructions suffix of the reader's reply: appended only when
the field is present and non-empty. -/
def special_text (o : OrderRecord) : String :=
  match o.special_instructions with
  | none => ""
  | some si => if si = "" then "" else "Special Instructions: " ++ si

/-- C4 (amended): for a stored order the reader produces exactly the fixed
template around the status, the items segment, the seller segment and the
estimated-delivery segment, followed by the special-instructions suffix; the
function is pure, so nothing is mutated. -/
theorem read_order_status_template (sellers : SellersDB) (db : OrdersDB) (oid : String)
    (o : OrderRecord) (h : db.lookup oid = some o) :
    read_order_status sellers db oid =
      ("Order '" ++ (oid ++ ("': Status is '" ++ (o.status ++
        ("'. Items: " ++ (items_text o ++ (". Seller: " ++ (seller_text sellers o ++
          (". Estimated Delivery: " ++ (edt_text o ++ ". ")))))))))) ++ special_text o := by
  unfold items_text seller_text edt_text special_text
  simp only [read_order_status, h]
  cases hsi : o.special_instructions with
  | none => simp
  | some si =>
    by_cases hempty : si = ""
    · simp [hempty]
    · simp [hempty]

theorem read_order_status_template_witness :
    read_order_status [("S2", "Acme Retail")]
        [("ORD8", (⟨"Shipped", some ["Pen", "Ink"], some "S2", none, some "ring bell"⟩ : OrderRecord))]
        "ORD8" =
      ("Order '" ++ ("ORD8" ++ ("': Status is '" ++ ("Shipped" ++
        ("'. Items: " ++ (items_text ⟨"Shipped", some ["Pen", "Ink"], some "S2", none, some "ring bell"⟩ ++
          (". Seller: " ++ (seller_text [("S2", "Acme Retail")] ⟨"Shipped", some ["Pen", "Ink"], some "S2", none, some "ring bell"⟩ ++
            (". Estimated Delivery: " ++
              (edt_text ⟨"Shipped", some ["Pen", "Ink"], some "S2", none, some "ring bell"⟩ ++ ". ")))))))))) ++
        special_text ⟨"Shipped", some ["Pen", "Ink"], some "S2", none, some "ring bell"⟩ :=
  read_order_status_template [("S2", "Acme Retail")]
    [("ORD8", ⟨"Shipped", some ["Pen", "Ink"], some "S2", none, some "ring bell"⟩)]
    "ORD8" ⟨"Shipped", some ["Pen", "Ink"], some "S2", none, some "ring bell"⟩ (by decide)

set_option maxRecDepth 8192 in
/-- C4 (counterexample): an order whose items field is present but empty is
rendered with an empty items segment, not with the "No items listed"
placeholder the claim promises for empty items. -/
theorem read_empty_items_no_placeholder :
    (⟨"Processing", some [], none, some "Tomorrow", none⟩ : OrderRecord).items = some [] ∧
    strIn "No items listed"
      (read_order_status []
        [("OX", (⟨"Processing", some [], none, some "Tomorrow", none⟩ : OrderRecord))] "OX") =
      false ∧
    read_order_status []
        [("OX", (⟨"Processing", some [], none, some "Tomorrow", none⟩ : OrderRecord))] "OX" =
      "Order 'OX': Status is 'Processing'. Items: . Seller: Unknown Seller. Estimated Delivery: Tomorrow. " := by
  decide

end GreatBuy
